import Mathlib

/-!
Verification of the list-applications request/response contract and the
Application entity of the loan-brokerage backend
(src/backend/src/api/brokers/applications/list-applications/list-applications.dto.ts,
which also contains the Application entity definition).

Shallow embedding: the field lists of the response DTOs, the
column mapping of the entity, the derived display identifier, the
date-normalization transform, the field-level validators and the
aggregate query are translated into executable Lean definitions.
External collaborators (the JavaScript date parser and the email-syntax
predicate of the validation library) are passed in as function
parameters, since their implementations live outside this repository.
-/

namespace LoanBroker

/-! ## Response DTO field lists

Taken from the PickType field lists in list-applications.dto.ts. -/

/-- Fields of ApplicationDto (the detail/create view), lines 51-68:
PickType of Application over the listed keys. -/
def applicationDtoFields : List String :=
  [ "applicantName"
  , "applicantEmail"
  , "applicantMobilePhoneNumber"
  , "applicantAddress"
  , "annualIncomeBeforeTax"
  , "incomingAddress"
  , "incomingDeposit"
  , "incomingPrice"
  , "incomingStampDuty"
  , "loanAmount"
  , "loanDuration"
  , "monthlyExpenses"
  , "outgoingAddress"
  , "outgoingMortgage"
  , "outgoingValuation"
  , "savingsContribution" ]

/-- Fields of BrokerApplicationDto (the list summary view), lines 75-85:
PickType of Application over the listed keys. -/
def brokerApplicationDtoFields : List String :=
  [ "id"
  , "applicationId"
  , "createdAt"
  , "status"
  , "loanAmount"
  , "loanDuration"
  , "applicantName"
  , "incomingAddress"
  , "outgoingAddress" ]

/-- Entity attributes carrying the Exclude serialization marker in the
Application entity: id (line 132), createdAt (line 358), updatedAt
(line 371). No other attribute carries Exclude. -/
def excludeMarkedFields : List String :=
  ["id", "createdAt", "updatedAt"]

/-- The financial-detail attributes of the Application entity (every
monetary column except the loan amount shown in the summary). -/
def financialDetailFields : List String :=
  [ "annualIncomeBeforeTax"
  , "incomingDeposit"
  , "incomingPrice"
  , "incomingStampDuty"
  , "monthlyExpenses"
  , "outgoingMortgage"
  , "outgoingValuation"
  , "savingsContribution" ]

/-- The applicant contact attributes other than the name. -/
def applicantContactFields : List String :=
  ["applicantEmail", "applicantMobilePhoneNumber", "applicantAddress"]

/-! ## Derived display identifier

Application.applicationId, lines 143-150: a virtual column whose getter
returns the letter A followed by the row id rendered in decimal and
left-padded with the character 0 to length 5. -/

/-- JavaScript String.prototype.padStart with a single pad character:
if the string already has at least the target length it is returned
unchanged, otherwise copies of the pad character are prepended until the
target length is reached. -/
def padStart (s : String) (targetLength : Nat) (c : Char) : String :=
  if targetLength ≤ s.length then s
  else String.mk (List.replicate (targetLength - s.length) c) ++ s

/-- The getter of the virtual applicationId column: the template literal
resulting from the id, as in the source
getter (line 147). -/
def applicationId (id : Nat) : String :=
  "A" ++ padStart (Nat.repr id) 5 '0'

theorem padStart_of_le {s : String} {n : Nat} {c : Char}
    (h : n ≤ s.length) : padStart s n c = s := by
  simp [padStart, h]

theorem padStart_suffix (s : String) (n : Nat) (c : Char) :
    ∃ p, padStart s n c = p ++ s := by
  by_cases h : n ≤ s.length
  · exact ⟨"", by simp [padStart_of_le h]⟩
  · exact ⟨String.mk (List.replicate (n - s.length) c), by simp [padStart, h]⟩

/-! ## Date normalization and the request boundary validator

The Transform decorator on minimumDate (line 35) and maximumDate
(line 44) evaluates
value and not isNaN(new Date(value).getTime()) then new Date(value) else null.
The JavaScript date parser is an external collaborator: it is passed in
as a parameter parse, where parse v = some t when new Date(v) is a valid
date with timestamp t, and parse v = none when it is an Invalid Date
(NaN timestamp). An empty string is falsy, so the conjunction
short-circuits to null for it. -/

/-- The Transform pipe applied to a supplied query-string value. -/
def dateTransform (parse : String → Option Int) (value : String) : Option Int :=
  if value = "" then none else parse value

/-- The three bad-request message constants imported from
src/common/constants/response-messages (module not part of this
fragment); their identities are what matters, so they are an
enumeration. -/
inductive BadRequestMessage where
  | INVALID_MINIMUM_DATE_ERROR
  | INVALID_MAXIMUM_DATE_ERROR
  | MINIMUM_DATE_EXCEEDS_MAXIMUM_DATE_ERROR
deriving DecidableEq

/-- The BAD_REQUEST_ERRORS enumeration of list-applications.dto.ts
lines 95-99. -/
def BAD_REQUEST_ERRORS : List BadRequestMessage :=
  [ BadRequestMessage.INVALID_MINIMUM_DATE_ERROR
  , BadRequestMessage.INVALID_MAXIMUM_DATE_ERROR
  , BadRequestMessage.MINIMUM_DATE_EXCEEDS_MAXIMUM_DATE_ERROR ]

/-- The request-level failures of the list endpoint: the two
date-shape rejections and the DateRangeError. -/
inductive ListRequestError where
  | invalidMinimumDate
  | invalidMaximumDate
  | dateRange
deriving DecidableEq

/-- The bad-request message carried by each failure. -/
def ListRequestError.message : ListRequestError → BadRequestMessage
  | .invalidMinimumDate => .INVALID_MINIMUM_DATE_ERROR
  | .invalidMaximumDate => .INVALID_MAXIMUM_DATE_ERROR
  | .dateRange => .MINIMUM_DATE_EXCEEDS_MAXIMUM_DATE_ERROR

/-- A supplied value that is non-empty yet parses to no date. -/
def suppliedUnparseable (parse : String → Option Int) : Option String → Bool
  | none => false
  | some v => (v != "") && (dateTransform parse v).isNone

/-- Normalization of an optional raw query value through the Transform
pipe: absent stays absent, a supplied value goes through dateTransform. -/
def normalizeDate (parse : String → Option Int) : Option String → Option Int
  | none => none
  | some v => dateTransform parse v

/-- Modelled from the spec: the boundary-facing request validation of the
list endpoint (its handler is not part of this fragment; the DTO only
declares the three possible messages in BAD_REQUEST_ERRORS). A supplied
non-empty unparseable minimumDate fails with INVALID_MINIMUM_DATE_ERROR,
then likewise maximumDate with INVALID_MAXIMUM_DATE_ERROR; after
normalization, if both dates are present and the minimum exceeds the
maximum, the request fails with a DateRangeError carrying
MINIMUM_DATE_EXCEEDS_MAXIMUM_DATE_ERROR; otherwise the normalized filter
is accepted. -/
def validateListDates (parse : String → Option Int)
    (minimumDate maximumDate : Option String) :
    Except ListRequestError (Option Int × Option Int) :=
  if suppliedUnparseable parse minimumDate then .error .invalidMinimumDate
  else if suppliedUnparseable parse maximumDate then .error .invalidMaximumDate
  else
    match normalizeDate parse minimumDate, normalizeDate parse maximumDate with
    | some mn, some mx =>
        if mx < mn then .error .dateRange else .ok (some mn, some mx)
    | mn, mx => .ok (mn, mx)

/-! ## The completed query parameter

Modelled from the spec: the task-status enumeration
(src/enums/task-status.enum, not part of this fragment) contains at
least the members Pending, InProgress and Completed; its values are the
member names. -/

/-- Modelled from the spec: the value set of the TaskStatus enumeration. -/
def taskStatusValues : List String := ["Pending", "InProgress", "Completed"]

/-- The runtime validation of the completed parameter, line 28 of the
DTO: IsEnum(TaskStatus) accepts any member of the whole enumeration. -/
def completedRuntimeCheck (v : String) : Bool := taskStatusValues.contains v

/-- The compile-time type annotation of the completed field, line 30 of
the DTO: TaskStatus.Completed or TaskStatus.Pending only. -/
def completedDeclaredValues : List String := ["Completed", "Pending"]

/-! ## Field-level validation of the applicant fields

JavaScript runtime values reaching the validators. -/

inductive JSValue where
  | str (s : String)
  | num (q : ℚ)
  | nullV
  | undef
deriving DecidableEq

/-- The IsString decorator: typeof value is string. -/
def isStringCheck : JSValue → Bool
  | .str _ => true
  | _ => false

/-- The IsEmail decorator; the email-syntax predicate itself belongs to
the external validation library and is passed in as a parameter. A
non-string value never passes. -/
def isEmailCheck (isEmail : String → Bool) : JSValue → Bool
  | .str s => isEmail s
  | _ => false

/-- The four applicant fields of the Application entity as they arrive
from untrusted input. -/
structure ApplicantFields where
  applicantName : JSValue
  applicantEmail : JSValue
  applicantMobilePhoneNumber : JSValue
  applicantAddress : JSValue

/-- The violated constraints over the applicant fields, one entry per
violated decorator, collected exhaustively: IsString on applicantName
(line 156), IsEmail on applicantEmail (line 164), IsString on
applicantMobilePhoneNumber (line 172), IsString on applicantAddress
(line 184). -/
def applicantFieldViolations (isEmail : String → Bool)
    (a : ApplicantFields) : List String :=
  (if isStringCheck a.applicantName then [] else ["applicantName"])
    ++ (if isEmailCheck isEmail a.applicantEmail then [] else ["applicantEmail"])
    ++ (if isStringCheck a.applicantMobilePhoneNumber then []
        else ["applicantMobilePhoneNumber"])
    ++ (if isStringCheck a.applicantAddress then [] else ["applicantAddress"])

/-! ## Persistence mapping of the monetary attributes -/

/-- The monetary attributes of the Application entity, in declaration
order. -/
inductive MoneyAttr where
  | annualIncomeBeforeTax
  | incomingDeposit
  | incomingPrice
  | incomingStampDuty
  | loanAmount
  | monthlyExpenses
  | outgoingMortgage
  | outgoingValuation
  | savingsContribution
deriving DecidableEq

/-- The table column of each monetary attribute, read off the Column
decorators: note that line 307 maps outgoingMortgage to the column
named outgoing_valuation, the same column line 318 gives
outgoingValuation. -/
def MoneyAttr.column : MoneyAttr → String
  | .annualIncomeBeforeTax => "annual_income_before_tax"
  | .incomingDeposit => "incoming_deposit"
  | .incomingPrice => "incoming_price"
  | .incomingStampDuty => "incoming_stamp_duty"
  | .loanAmount => "loan_amount"
  | .monthlyExpenses => "monthly_expenses"
  | .outgoingMortgage => "outgoing_valuation"
  | .outgoingValuation => "outgoing_valuation"
  | .savingsContribution => "savings_contribution"

/-- All monetary attributes in entity declaration order. -/
def moneyAttrs : List MoneyAttr :=
  [ .annualIncomeBeforeTax
  , .incomingDeposit
  , .incomingPrice
  , .incomingStampDuty
  , .loanAmount
  , .monthlyExpenses
  , .outgoingMortgage
  , .outgoingValuation
  , .savingsContribution ]

/-- Saving an entity: each attribute writes its value to its mapped
column; the table has one cell per column, so the last write to a
column is the persisted one. -/
def persistedCell (vals : MoneyAttr → ℚ) (col : String) : Option ℚ :=
  ((moneyAttrs.filter (fun a => MoneyAttr.column a = col)).map vals).getLast?

/-- Reloading an attribute reads the cell of its mapped column. -/
def reloadAttr (vals : MoneyAttr → ℚ) (a : MoneyAttr) : Option ℚ :=
  persistedCell vals (MoneyAttr.column a)

/-! ## The aggregate query -/

/-- SQL AVG over the loan_amount column: NULL over zero rows, otherwise
the mean. -/
def sqlAvg (rows : List ℚ) : Option ℚ :=
  if rows.isEmpty then none else some (rows.sum / rows.length)

/-- The JavaScript expression x or-else 0 of line 387: both null and the
number 0 are falsy and give 0, any other number passes through. -/
def jsOrZero : Option ℚ → ℚ
  | none => 0
  | some q => if q = 0 then 0 else q

/-- Application.getAverageLoanAmount, lines 381-389: the aggregate query
produces AVG(loan_amount) as a single row attribute and the result is
coalesced with or-else 0. -/
def getAverageLoanAmount (rows : List ℚ) : ℚ :=
  jsOrZero (sqlAvg rows)

/-! ## Helper lemmas -/

theorem suppliedUnparseable_eq_false_of_normalize
    {parse : String → Option Int} {r : Option String} {t : Int}
    (h : normalizeDate parse r = some t) :
    suppliedUnparseable parse r = false := by
  cases r with
  | none => rfl
  | some v =>
      simp only [normalizeDate] at h
      simp [suppliedUnparseable, h]

theorem jsOrZero_some (q : ℚ) : jsOrZero (some q) = q := by
  by_cases h : q = 0 <;> simp [jsOrZero, h]

/-! ## Claims -/

/-- C1: a minimumDate (resp. maximumDate) supplied as a non-empty string
that parses to no date makes the boundary validation reject the request
with the message INVALID_MINIMUM_DATE_ERROR (resp.
INVALID_MAXIMUM_DATE_ERROR); the request is not silently accepted with
the date treated as absent. -/
theorem unparseable_date_rejected
    (parse : String → Option Int) (v : String) (other : Option String)
    (hv : v ≠ "") (hp : parse v = none)
    (hother : suppliedUnparseable parse other = false) :
    validateListDates parse (some v) other
        = .error .invalidMinimumDate
    ∧ validateListDates parse other (some v)
        = .error .invalidMaximumDate
    ∧ ListRequestError.message .invalidMinimumDate
        = .INVALID_MINIMUM_DATE_ERROR
    ∧ ListRequestError.message .invalidMaximumDate
        = .INVALID_MAXIMUM_DATE_ERROR := by
  have hbad : suppliedUnparseable parse (some v) = true := by
    simp [suppliedUnparseable, dateTransform, hv, hp]
  refine ⟨?_, ?_, rfl, rfl⟩
  · simp [validateListDates, hbad]
  · simp [validateListDates, hbad, hother]

/-- Witness for C1 at parse that fails on everything and minimumDate
supplied as the non-empty string x. -/
theorem unparseable_date_rejected_witness :
    validateListDates (fun _ => none) (some "x") none
        = .error .invalidMinimumDate
    ∧ validateListDates (fun _ => none) none (some "x")
        = .error .invalidMaximumDate
    ∧ ListRequestError.message .invalidMinimumDate
        = .INVALID_MINIMUM_DATE_ERROR
    ∧ ListRequestError.message .invalidMaximumDate
        = .INVALID_MAXIMUM_DATE_ERROR :=
  unparseable_date_rejected (fun _ => none) "x" none (by decide) rfl rfl

/-- C2: when both dates are present after normalization and the minimum
strictly exceeds the maximum, the request fails with the DateRangeError
carrying exactly the message MINIMUM_DATE_EXCEEDS_MAXIMUM_DATE_ERROR. -/
theorem date_range_rejected
    (parse : String → Option Int) (minRaw maxRaw : Option String)
    (mn mx : Int)
    (hmn : normalizeDate parse minRaw = some mn)
    (hmx : normalizeDate parse maxRaw = some mx)
    (hlt : mx < mn) :
    validateListDates parse minRaw maxRaw = .error .dateRange
    ∧ ListRequestError.message .dateRange
        = .MINIMUM_DATE_EXCEEDS_MAXIMUM_DATE_ERROR := by
  refine ⟨?_, rfl⟩
  simp [validateListDates,
    suppliedUnparseable_eq_false_of_normalize hmn,
    suppliedUnparseable_eq_false_of_normalize hmx,
    hmn, hmx, hlt]

/-- Witness for C2 at a parser over the two date strings of the spec
example, the minimum mapping to the later timestamp. -/
theorem date_range_rejected_witness :
    validateListDates
        (fun s => if s = "2024-01-01" then some 1 else some 0)
        (some "2024-01-01") (some "2023-01-01")
      = .error .dateRange
    ∧ ListRequestError.message .dateRange
        = .MINIMUM_DATE_EXCEEDS_MAXIMUM_DATE_ERROR :=
  date_range_rejected
    (fun s => if s = "2024-01-01" then some 1 else some 0)
    (some "2024-01-01") (some "2023-01-01") 1 0
    (by decide) (by decide) (by decide)

/-- C3: the runtime validation of the completed query parameter is
IsEnum over the whole TaskStatus enumeration, so the member InProgress
is accepted at runtime even though the declared compile-time type of
the field admits only Completed and Pending. -/
theorem completed_accepts_in_progress :
    completedRuntimeCheck "InProgress" = true
    ∧ completedDeclaredValues.contains "InProgress" = false := by decide

/-- A concrete store of monetary attribute values in which the two
outgoing amounts differ. -/
def exampleVals : MoneyAttr → ℚ := fun a =>
  if a = .outgoingMortgage then 100
  else if a = .outgoingValuation then 200
  else 0

/-- C4: outgoingMortgage and outgoingValuation are both mapped to the
column named outgoing_valuation, so saving an Application whose two
outgoing amounts differ and reloading it returns the outgoingValuation
value for outgoingMortgage — the two fields do not round-trip
independently. -/
theorem outgoing_mortgage_overwritten :
    MoneyAttr.column .outgoingMortgage = MoneyAttr.column .outgoingValuation
    ∧ exampleVals .outgoingMortgage = 100
    ∧ exampleVals .outgoingValuation = 200
    ∧ reloadAttr exampleVals .outgoingMortgage
        = some (exampleVals .outgoingValuation)
    ∧ reloadAttr exampleVals .outgoingMortgage
        ≠ some (exampleVals .outgoingMortgage) := by decide

/-- C5 counterexample: the list summary view BrokerApplicationDto — an
externally-visible response representation, carried by
BrokerApplicationsListResponseDto — explicitly picks the numeric
primary key id and the timestamp createdAt, so these are not excluded
from every externally-visible representation. -/
theorem list_view_contains_id :
    "id" ∈ brokerApplicationDtoFields
    ∧ "createdAt" ∈ brokerApplicationDtoFields := by decide

/-- C5 amended: the entity marks id, createdAt and updatedAt with the
Exclude serialization marker and the detail view ApplicationDto
contains none of the three; the list summary view, however, explicitly
re-includes id and createdAt (though not updatedAt). -/
theorem exclusion_contract_amended :
    excludeMarkedFields = ["id", "createdAt", "updatedAt"]
    ∧ excludeMarkedFields.all
        (fun f => !(applicationDtoFields.contains f)) = true
    ∧ brokerApplicationDtoFields.contains "id" = true
    ∧ brokerApplicationDtoFields.contains "createdAt" = true
    ∧ brokerApplicationDtoFields.contains "updatedAt" = false := by decide

/-- C6: the derived display identifier is the letter A followed by the
decimal rendering of the key left-padded with zeros to width 5; padding
never truncates — the full decimal key is always a suffix, a key of at
least 5 digits is used unpadded — and key 7 gives A00007 while key
123456 gives A123456. -/
theorem applicationId_spec (k : Nat) :
    applicationId k = "A" ++ padStart (Nat.repr k) 5 '0'
    ∧ (5 ≤ (Nat.repr k).length → applicationId k = "A" ++ Nat.repr k)
    ∧ (∃ p, applicationId k = "A" ++ (p ++ Nat.repr k))
    ∧ applicationId 7 = "A00007"
    ∧ applicationId 123456 = "A123456" := by
  refine ⟨rfl, ?_, ?_, by decide, by decide⟩
  · intro h
    rw [applicationId, padStart_of_le h]
  · obtain ⟨p, hp⟩ := padStart_suffix (Nat.repr k) 5 '0'
    exact ⟨p, by rw [applicationId, hp]⟩

/-- Witness for C6 at the six-digit key 123456: the padding branch with
the length hypothesis discharged concretely. -/
theorem applicationId_spec_witness :
    applicationId 123456 = "A" ++ Nat.repr 123456 :=
  (applicationId_spec 123456).2.1 (by decide)

/-- C7: the average loan amount is the mean of the loan_amount column
over all rows, and over zero rows it is exactly the number 0. -/
theorem getAverageLoanAmount_spec (rows : List ℚ) :
    (rows = [] → getAverageLoanAmount rows = 0)
    ∧ (rows ≠ [] →
        getAverageLoanAmount rows = rows.sum / rows.length) := by
  constructor
  · intro h
    subst h
    rfl
  · intro h
    have : rows.isEmpty = false := by simpa [List.isEmpty_iff] using h
    simp [getAverageLoanAmount, sqlAvg, this, jsOrZero_some]

/-- Witness for C7: the mean of the two rows 2 and 4 is 3, and the
empty table gives 0. -/
theorem getAverageLoanAmount_spec_witness :
    getAverageLoanAmount [] = 0
    ∧ getAverageLoanAmount [2, 4] = (3 : ℚ) := by
  constructor
  · exact (getAverageLoanAmount_spec []).1 rfl
  · have h := (getAverageLoanAmount_spec [2, 4]).2 (by decide)
    rw [h]
    norm_num

/-- C8: the normalization transform maps an empty or unparseable
supplied date string to null rather than raising an error, and maps a
parseable date string to the parsed date. -/
theorem dateTransform_spec (parse : String → Option Int) (v : String) :
    (v = "" → dateTransform parse v = none)
    ∧ (parse v = none → dateTransform parse v = none)
    ∧ (∀ d, v ≠ "" → parse v = some d → dateTransform parse v = some d) := by
  refine ⟨?_, ?_, ?_⟩
  · intro h
    simp [dateTransform, h]
  · intro h
    by_cases hv : v = "" <;> simp [dateTransform, hv, h]
  · intro d hv h
    simp [dateTransform, hv, h]

/-- Witness for C8 at a parser recognising the single string d: the
empty string and the unrecognised string x become null, the string d
becomes its date. -/
theorem dateTransform_spec_witness :
    dateTransform (fun s => if s = "d" then some 5 else none) "" = none
    ∧ dateTransform (fun s => if s = "d" then some 5 else none) "x" = none
    ∧ dateTransform (fun s => if s = "d" then some 5 else none) "d" = some 5 :=
  ⟨(dateTransform_spec (fun s => if s = "d" then some 5 else none) "").1 rfl,
   (dateTransform_spec (fun s => if s = "d" then some 5 else none) "x").2.1
     (by decide),
   (dateTransform_spec (fun s => if s = "d" then some 5 else none) "d").2.2 5
     (by decide) (by decide)⟩

/-- An applicant-field input in which all three plain string fields are
empty strings and the email is a plausible address. -/
def emptyApplicantInput : ApplicantFields :=
  { applicantName := .str ""
  , applicantEmail := .str "a@b.co"
  , applicantMobilePhoneNumber := .str ""
  , applicantAddress := .str "" }

/-- C9 counterexample: with applicantName, applicantMobilePhoneNumber
and applicantAddress all equal to the empty string, field validation
reports no violation at all — the empty strings are accepted, contrary
to the claim that they are rejected. -/
theorem empty_strings_accepted :
    applicantFieldViolations (fun s => s == "a@b.co") emptyApplicantInput
      = [] := by decide

/-- C9 amended: the validators require applicantName,
applicantMobilePhoneNumber and applicantAddress only to be strings —
any string value, the empty string included, yields no violation for
them — while applicantEmail is flagged exactly when it fails the
email-syntax check. -/
theorem applicant_validation_amended
    (isEmail : String → Bool) (a : ApplicantFields) (s₁ s₂ s₃ : String)
    (h₁ : a.applicantName = .str s₁)
    (h₂ : a.applicantMobilePhoneNumber = .str s₂)
    (h₃ : a.applicantAddress = .str s₃) :
    "applicantName" ∉ applicantFieldViolations isEmail a
    ∧ "applicantMobilePhoneNumber" ∉ applicantFieldViolations isEmail a
    ∧ "applicantAddress" ∉ applicantFieldViolations isEmail a
    ∧ ("applicantEmail" ∈ applicantFieldViolations isEmail a
        ↔ isEmailCheck isEmail a.applicantEmail = false) := by
  have e₁ : isStringCheck a.applicantName = true := by
    rw [h₁]; rfl
  have e₂ : isStringCheck a.applicantMobilePhoneNumber = true := by
    rw [h₂]; rfl
  have e₃ : isStringCheck a.applicantAddress = true := by
    rw [h₃]; rfl
  cases he : isEmailCheck isEmail a.applicantEmail <;>
    simp [applicantFieldViolations, e₁, e₂, e₃, he]

/-- Witness for C9 amended at the all-empty-strings input: no violation
for the three string fields. -/
theorem applicant_validation_amended_witness :
    "applicantName"
        ∉ applicantFieldViolations (fun s => s == "a@b.co") emptyApplicantInput
    ∧ "applicantMobilePhoneNumber"
        ∉ applicantFieldViolations (fun s => s == "a@b.co") emptyApplicantInput
    ∧ "applicantAddress"
        ∉ applicantFieldViolations (fun s => s == "a@b.co") emptyApplicantInput
    ∧ ("applicantEmail"
          ∈ applicantFieldViolations (fun s => s == "a@b.co") emptyApplicantInput
        ↔ isEmailCheck (fun s => s == "a@b.co")
            emptyApplicantInput.applicantEmail = false) :=
  applicant_validation_amended (fun s => s == "a@b.co") emptyApplicantInput
    "" "" "" rfl rfl rfl

/-- C10: the list view item shape contains exactly the nine summary
fields id, applicationId, createdAt, status, loanAmount, loanDuration,
applicantName, incomingAddress and outgoingAddress, and omits every
financial detail field and every applicant contact field. -/
theorem list_view_fields_spec :
    brokerApplicationDtoFields =
      [ "id", "applicationId", "createdAt", "status", "loanAmount"
      , "loanDuration", "applicantName", "incomingAddress"
      , "outgoingAddress" ]
    ∧ (financialDetailFields ++ applicantContactFields).all
        (fun f => !(brokerApplicationDtoFields.contains f)) = true := by
  decide

end LoanBroker
